import Mathlib

/-!
Shallow embedding of `aerospike_store.py` (class `AerospikeSessionStore`):
a starsessions `SessionStore` backed by Aerospike.

The Aerospike database is modelled as an association list from record keys
(namespace, set name, user key) to records; a record holds its bins and
optional TTL metadata.  The Python client calls `get`/`put`/`remove` raise
`RecordNotFound` where the embedding returns `Except` errors; `read` can be
handed an injected fault to model a mid-request database error other than
record-not-found, mirroring the exception paths of the source.
-/

set_option autoImplicit false

namespace AerospikeStore

/-- An opaque byte payload (Python `bytes`), as a list of byte values. -/
abbrev Bytes := List Nat

/-- An Aerospike record key: the (namespace, set name, user key) triple
built by `_key`. -/
abbrev AeroKey := String × String × String

/-- A stored Aerospike record: its bins (named fields) and its record TTL
metadata.  `ttl = none` means the write supplied no TTL metadata, leaving
the server-side default expiry behaviour. -/
structure AeroRecord where
  bins : List (String × Bytes)
  ttl : Option Int
  deriving DecidableEq

/-- The database contents: an association of record keys to records. -/
abbrev AeroDB := List (AeroKey × AeroRecord)

/-- Errors raised by the Aerospike client (`aerospike.exception`):
`recordNotFound` is `aex.RecordNotFound`; `other code` stands for any other
`AerospikeError` (e.g. a network failure), tagged by an error code. -/
inductive AerospikeErr where
  | recordNotFound
  | other (code : Nat)
  deriving DecidableEq

/-- Look up the record stored under a key, if any. -/
def lookupDB : AeroDB → AeroKey → Option AeroRecord
  | [], _ => none
  | (k2, r) :: rest, k => if k2 = k then some r else lookupDB rest k

/-- Delete every entry stored under a key. -/
def dbRemove : AeroDB → AeroKey → AeroDB
  | [], _ => []
  | (k2, r) :: rest, k =>
    if k2 = k then dbRemove rest k else (k2, r) :: dbRemove rest k

/-- Upsert: store a record under a key, replacing any previous record. -/
def dbPut (db : AeroDB) (k : AeroKey) (r : AeroRecord) : AeroDB :=
  (k, r) :: dbRemove db k

/-- `client.get(key)`: returns the record, or raises `RecordNotFound` when
the key is absent.  `fault = some code` models a database error other than
record-not-found arising during the call (e.g. network failure mid-request);
`none` means the call reaches the database normally. -/
def clientGet (db : AeroDB) (fault : Option Nat) (k : AeroKey) :
    Except AerospikeErr AeroRecord :=
  match fault with
  | some code => .error (.other code)
  | none =>
    match lookupDB db k with
    | some r => .ok r
    | none => .error .recordNotFound

/-- `client.put(key, bins)` as called by the source: stores the bins with no
TTL metadata (the `meta={"ttl": record_ttl}` argument is commented out in
the source, so no record TTL is applied). -/
def clientPut (db : AeroDB) (k : AeroKey) (bins : List (String × Bytes)) :
    AeroDB :=
  dbPut db k { bins := bins, ttl := none }

/-- `client.remove(key)`: deletes the record, or raises `RecordNotFound`
when the key is absent. -/
def clientRemove (db : AeroDB) (k : AeroKey) : Except AerospikeErr AeroDB :=
  match lookupDB db k with
  | some _ => .ok (dbRemove db k)
  | none => .error .recordNotFound

/-- `DEFAULT_GC_TTL = 60 * 60 * 24 * 30` — default TTL (30 days) used when
the caller's ttl is non-positive. -/
def DEFAULT_GC_TTL : Int := 60 * 60 * 24 * 30

/-- The store's construction-time state: namespace, set name and default
GC TTL fixed in `__init__`, plus the contents of the connected database. -/
structure AerospikeSessionStore where
  nsp : String
  set_name : String
  gc_ttl : Int
  db : AeroDB
  deriving DecidableEq

/-- `_key(session_id)`: the (namespace, set, session_id) triple addressing
a session's record. -/
def _key (st : AerospikeSessionStore) (session_id : String) : AeroKey :=
  (st.nsp, st.set_name, session_id)

/-- `read(session_id, lifetime)`: fetch the record, return its "data" bin
(empty bytes when the bin is absent), catching `RecordNotFound` as empty
bytes; any other client error propagates. -/
def read (st : AerospikeSessionStore) (fault : Option Nat)
    (session_id : String) (lifetime : Int) : Except AerospikeErr Bytes :=
  match clientGet st.db fault (_key st session_id) with
  | .ok rec => .ok ((lookupBin rec.bins "data").getD [])
  | .error .recordNotFound => .ok []
  | .error e => .error e
where
  /-- `bins.get(name, b"")`-style lookup of a bin by name. -/
  lookupBin : List (String × Bytes) → String → Option Bytes
    | [], _ => none
    | (n, v) :: rest, b => if n = b then some v else lookupBin rest b

/-- The `record_ttl` local computed by `write`:
`ttl if ttl > 0 else self._gc_ttl`. -/
def computedRecordTTL (st : AerospikeSessionStore) (ttl : Int) : Int :=
  if ttl > 0 then ttl else st.gc_ttl

/-- `write(session_id, data, lifetime, ttl)`: computes the effective record
TTL, puts a record with the single bin `"data" ↦ data` (the TTL metadata is
commented out in the source and therefore not applied), and returns the
session id unchanged.  Result: (updated store state, returned id). -/
def write (st : AerospikeSessionStore) (session_id : String) (data : Bytes)
    (lifetime : Int) (ttl : Int) : AerospikeSessionStore × String :=
  let record_ttl := computedRecordTTL st ttl
  ({ st with db := clientPut st.db (_key st session_id) [("data", data)] },
    session_id)

/-- `remove(session_id)`: delete the record, treating `RecordNotFound` as a
no-op (`pass`); any other client error propagates. -/
def remove (st : AerospikeSessionStore) (session_id : String) :
    Except AerospikeErr AerospikeSessionStore :=
  match clientRemove st.db (_key st session_id) with
  | .ok db2 => .ok { st with db := db2 }
  | .error .recordNotFound => .ok st
  | .error e => .error e

/-- An opaque connected client handle. -/
abbrev Client := Nat

/-- Outcome of `_connect_with_retry`: a connected client, or the last error
re-raised as fatal, each recording how many connection attempts were made;
`unreachable` is the trailing `raise RuntimeError("Unreachable")`, hit only
when the loop body never runs. -/
inductive ConnectResult where
  | connected (c : Client) (attemptsMade : Nat)
  | fatal (e : AerospikeErr) (attemptsMade : Nat)
  | unreachable
  deriving DecidableEq

/-- The attempt count recorded in a `ConnectResult`. -/
def ConnectResult.attempts : ConnectResult → Nat
  | .connected _ n => n
  | .fatal _ n => n
  | .unreachable => 0

/-- The body of the `for attempt in range(1, retries + 1)` loop of
`_connect_with_retry`, with `fuel` = number of remaining loop iterations
and `attempt` the current attempt number.  `outcome i` is the result of the
connection attempt made on iteration `i`. -/
def connectGo (outcome : Nat → Except AerospikeErr Client) (retries : Nat) :
    Nat → Nat → ConnectResult
  | 0, _ => .unreachable
  | fuel + 1, attempt =>
    match outcome attempt with
    | .ok c => .connected c attempt
    | .error e =>
      if attempt = retries then .fatal e attempt
      else connectGo outcome retries fuel (attempt + 1)

/-- `_connect_with_retry(hosts, retries, delay)`: run the attempt loop with
attempt numbers 1 .. retries. -/
def _connect_with_retry (outcome : Nat → Except AerospikeErr Client)
    (retries : Nat) : ConnectResult :=
  connectGo outcome retries retries 1

/-! ### Database lemmas -/

theorem lookupDB_dbRemove_self (db : AeroDB) (k : AeroKey) :
    lookupDB (dbRemove db k) k = none := by
  induction db with
  | nil => rfl
  | cons p rest ih =>
    obtain ⟨k2, r⟩ := p
    by_cases h : k2 = k <;> simp [dbRemove, lookupDB, h, ih]

theorem lookupDB_dbRemove_ne (db : AeroDB) (k k2 : AeroKey) (h : k2 ≠ k) :
    lookupDB (dbRemove db k) k2 = lookupDB db k2 := by
  induction db with
  | nil => rfl
  | cons p rest ih =>
    obtain ⟨k3, r⟩ := p
    by_cases h3 : k3 = k
    · subst h3
      have h6 : ¬k3 = k2 := fun hh => h hh.symm
      simp [dbRemove, lookupDB, ih, h6]
    · simp [dbRemove, lookupDB, h3, ih]

theorem lookupDB_dbPut_self (db : AeroDB) (k : AeroKey) (r : AeroRecord) :
    lookupDB (dbPut db k r) k = some r := by
  simp [dbPut, lookupDB]

theorem lookupDB_dbPut_ne (db : AeroDB) (k k2 : AeroKey) (r : AeroRecord)
    (h : k2 ≠ k) : lookupDB (dbPut db k r) k2 = lookupDB db k2 := by
  have h2 : ¬k = k2 := fun hh => h hh.symm
  simp [dbPut, lookupDB, h2, lookupDB_dbRemove_ne db k k2 h]

/-! ### Concrete stores for witnesses -/

/-- The byte payload `b"hello"`. -/
def helloBytes : Bytes := [104, 101, 108, 108, 111]

/-- A store as constructed by the demo app: namespace "test", set
"fastapi_sessions", the default GC TTL, over an empty database. -/
def demoStore : AerospikeSessionStore :=
  { nsp := "test", set_name := "fastapi_sessions", gc_ttl := DEFAULT_GC_TTL,
    db := [] }

/-- The demo store holding one session record for id "abc". -/
def demoStoreAbc : AerospikeSessionStore :=
  { demoStore with
    db := [(("test", "fastapi_sessions", "abc"),
            { bins := [("data", helloBytes)], ttl := none })] }

/-- The demo store holding a record for "abc" that has no "data" bin. -/
def demoStoreNoBin : AerospikeSessionStore :=
  { demoStore with
    db := [(("test", "fastapi_sessions", "abc"),
            { bins := [("x", [1])], ttl := none })] }

/-! ### Claim theorems -/

/-- C1: at `write("abc", b"hello", ttl = 0)` on a store whose configured
default GC TTL is 2592000 seconds, the `record_ttl` local evaluates to that
default, but the record actually stored carries no TTL metadata at all (the
TTL application is commented out in the source), so the default TTL is not
applied as the record's expiry, contrary to the claim. -/
theorem write_ttl_not_applied :
    computedRecordTTL demoStore 0 = 2592000 ∧
    lookupDB (write demoStore "abc" helloBytes 86400 0).1.db
        (_key demoStore "abc")
      = some { bins := [("data", helloBytes)], ttl := none } :=
  ⟨by decide, by decide⟩

/-- C2 counterexample: with retries = 1 and every connection attempt
failing, `_connect_with_retry` makes exactly 1 attempt in total — not the 2
attempts (one initial plus one retry) the claim requires — before
propagating the error as fatal. -/
theorem connect_attempts_cex :
    _connect_with_retry (fun _ => .error (.other 7)) 1
      = .fatal (.other 7) 1 ∧
    (_connect_with_retry (fun _ => .error (.other 7)) 1).attempts ≠ 1 + 1 :=
  ⟨rfl, by decide⟩

theorem connectGo_all_fail (outcome : Nat → Except AerospikeErr Client)
    (retries : Nat) :
    ∀ fuel attempt : Nat, (∀ i, ∃ e, outcome i = .error e) →
      attempt + fuel = retries + 1 → 1 ≤ attempt → attempt ≤ retries →
      ∃ e, outcome retries = .error e ∧
        connectGo outcome retries fuel attempt = .fatal e retries := by
  intro fuel
  induction fuel with
  | zero => intro attempt _ hinv _ h2; omega
  | succ n ih =>
    intro attempt hall hinv h1 h2
    obtain ⟨e, he⟩ := hall attempt
    by_cases hat : attempt = retries
    · subst hat
      exact ⟨e, he, by simp [connectGo, he]⟩
    · obtain ⟨e2, he2, hgo⟩ :=
        ih (attempt + 1) hall (by omega) (by omega) (by omega)
      exact ⟨e2, he2, by simp [connectGo, he, hat, hgo]⟩

theorem connectGo_success (outcome : Nat → Except AerospikeErr Client)
    (retries k : Nat) (c : Client) (hk : outcome k = .ok c)
    (hkr : k ≤ retries) :
    ∀ fuel attempt : Nat, attempt ≤ k → attempt + fuel = retries + 1 →
      (∀ i, attempt ≤ i → i < k → ∃ e, outcome i = .error e) →
      connectGo outcome retries fuel attempt = .connected c k := by
  intro fuel
  induction fuel with
  | zero => intro attempt hak hinv _; omega
  | succ n ih =>
    intro attempt hak hinv hfail
    by_cases hat : attempt = k
    · subst hat
      simp [connectGo, hk]
    · obtain ⟨e, he⟩ := hfail attempt le_rfl (by omega)
      have hne : ¬attempt = retries := by omega
      have hrec := ih (attempt + 1) (by omega) (by omega)
        (fun i h1 h2 => hfail i (by omega) h2)
      simp [connectGo, he, hne, hrec]

/-- C2 (amended): for retries ≥ 1, when every connection attempt fails,
`_connect_with_retry` makes exactly `retries` total attempts — the initial
attempt plus retries − 1 further retries — and propagates the last
attempt's error as fatal; and whenever the first successful attempt is
attempt k (1 ≤ k ≤ retries), it returns the connected client immediately
after exactly k attempts, with no further attempts. -/
theorem connect_retry_behavior (outcome : Nat → Except AerospikeErr Client)
    (retries : Nat) (hr : 1 ≤ retries) :
    ((∀ i, ∃ e, outcome i = .error e) →
      ∃ e, outcome retries = .error e ∧
        _connect_with_retry outcome retries = .fatal e retries) ∧
    (∀ k c, 1 ≤ k → k ≤ retries → outcome k = .ok c →
      (∀ i, 1 ≤ i → i < k → ∃ e, outcome i = .error e) →
      _connect_with_retry outcome retries = .connected c k) := by
  constructor
  · intro hall
    exact connectGo_all_fail outcome retries retries 1 hall (by omega)
      le_rfl hr
  · intro k c h1 h2 hk hfail
    exact connectGo_success outcome retries k c hk h2 retries 1 h1
      (by omega) hfail

/-- C2 witness: with attempt 1 failing and attempt 2 succeeding under
retries = 3, connect returns the client after exactly 2 attempts. -/
theorem connect_retry_behavior_witness :
    _connect_with_retry
        (fun i => if i = 2 then .ok 42 else .error (.other 1)) 3
      = .connected 42 2 := by
  refine (connect_retry_behavior _ 3 (by omega)).2 2 42 (by omega)
    (by omega) rfl ?_
  intro i h1 h2
  refine ⟨.other 1, ?_⟩
  have h3 : i = 1 := by omega
  subst h3
  rfl

/-- C3: write-then-read round-trips: writing data for a session id and then
reading that id (with no intervening fault) returns exactly the data, for
any lifetimes and any ttl. -/
theorem write_read_roundtrip (st : AerospikeSessionStore) (sid : String)
    (data : Bytes) (l1 ttl l2 : Int) :
    read (write st sid data l1 ttl).1 none sid l2 = .ok data := by
  simp [read, write, clientGet, clientPut, _key, read.lookupBin,
    lookupDB_dbPut_self]

/-- C4: reading a session id with no stored record returns empty bytes
rather than raising, and any database error other than record-not-found
propagates to the caller unmodified. -/
theorem read_missing_and_fault (st : AerospikeSessionStore) (sid : String)
    (l : Int) (hmiss : lookupDB st.db (_key st sid) = none) :
    read st none sid l = .ok [] ∧
    ∀ code, read st (some code) sid l = .error (.other code) := by
  constructor
  · simp [read, clientGet, hmiss]
  · intro code
    rfl

/-- C4 witness: at the empty demo store, reading an unwritten id yields
empty bytes, and an injected non-not-found fault (code 11) propagates. -/
theorem read_missing_and_fault_witness :
    read demoStore none "nope" 3600 = .ok [] ∧
    read demoStore (some 11) "nope" 3600 = .error (.other 11) :=
  ⟨(read_missing_and_fault demoStore "nope" 3600 rfl).1,
   (read_missing_and_fault demoStore "nope" 3600 rfl).2 11⟩

/-- C5: removing a session id with no stored record is a no-op: it raises
no error and leaves the store state unchanged. -/
theorem remove_missing_noop (st : AerospikeSessionStore) (sid : String)
    (hmiss : lookupDB st.db (_key st sid) = none) :
    remove st sid = .ok st := by
  simp [remove, clientRemove, hmiss]

/-- C5 witness: removing a never-written id from the empty demo store
returns the store unchanged. -/
theorem remove_missing_noop_witness :
    remove demoStore "nope" = .ok demoStore :=
  remove_missing_noop demoStore "nope" rfl

/-- C6: after a successful remove of a session id — whether or not a record
existed for it — reading that id returns empty bytes. -/
theorem remove_then_read_empty (st st2 : AerospikeSessionStore)
    (sid : String) (l : Int) (h : remove st sid = .ok st2) :
    read st2 none sid l = .ok [] := by
  cases hl : lookupDB st.db (_key st sid) with
  | some r =>
    simp [remove, clientRemove, hl] at h
    subst h
    simp [read, clientGet, _key, lookupDB_dbRemove_self]
  | none =>
    simp [remove, clientRemove, hl] at h
    subst h
    simp [read, clientGet, hl]

/-- C6 witness: removing "abc" from the demo store holding it yields the
empty demo store, where reading "abc" returns empty bytes. -/
theorem remove_then_read_empty_witness :
    read demoStore none "abc" 0 = .ok [] :=
  remove_then_read_empty demoStoreAbc demoStore "abc" 0 rfl

/-- C7: write returns the session identifier it was given, unchanged. -/
theorem write_returns_id (st : AerospikeSessionStore) (sid : String)
    (data : Bytes) (l ttl : Int) :
    (write st sid data l ttl).2 = sid := rfl

/-- C8: the key addressing a session's record is the (namespace, set name,
session id) triple with namespace and set fixed at construction; write
stores under that key a record whose bins are exactly the single field
"data" ↦ payload, leaving every other key untouched; a successful remove
also touches no other key. -/
theorem key_triple_and_record_shape (st st2 : AerospikeSessionStore)
    (sid : String) (data : Bytes) (l ttl : Int) :
    _key st sid = (st.nsp, st.set_name, sid) ∧
    lookupDB (write st sid data l ttl).1.db (st.nsp, st.set_name, sid)
      = some { bins := [("data", data)], ttl := none } ∧
    (∀ k, k ≠ (st.nsp, st.set_name, sid) →
      lookupDB (write st sid data l ttl).1.db k = lookupDB st.db k) ∧
    (remove st sid = .ok st2 →
      ∀ k, k ≠ (st.nsp, st.set_name, sid) →
        lookupDB st2.db k = lookupDB st.db k) := by
  refine ⟨rfl, ?_, ?_, ?_⟩
  · simp [write, clientPut, _key, lookupDB_dbPut_self]
  · intro k hk
    simp [write, clientPut, _key, lookupDB_dbPut_ne st.db _ k _ hk]
  · intro h k hk
    cases hl : lookupDB st.db (_key st sid) with
    | some r =>
      simp [remove, clientRemove, hl] at h
      subst h
      exact lookupDB_dbRemove_ne st.db _ k hk
    | none =>
      simp [remove, clientRemove, hl] at h
      subst h
      rfl

/-- C8 witness: at the demo store, writing "abc" leaves the record under a
different session id's key untouched. -/
theorem key_triple_and_record_shape_witness :
    lookupDB (write demoStore "abc" helloBytes 0 0).1.db
        ("test", "fastapi_sessions", "zzz")
      = lookupDB demoStore.db ("test", "fastapi_sessions", "zzz") :=
  (key_triple_and_record_shape demoStore demoStore "abc" helloBytes 0 0).2.2.1
    ("test", "fastapi_sessions", "zzz") (by decide)

/-- C9: reading a session id whose stored record exists but has no "data"
bin returns empty bytes rather than raising. -/
theorem read_record_without_data_bin (st : AerospikeSessionStore)
    (sid : String) (l : Int) (r : AeroRecord)
    (hfound : lookupDB st.db (_key st sid) = some r)
    (hnobin : read.lookupBin r.bins "data" = none) :
    read st none sid l = .ok [] := by
  simp [read, clientGet, hfound, hnobin]

/-- C9 witness: a record for "abc" holding only an "x" bin reads back as
empty bytes. -/
theorem read_record_without_data_bin_witness :
    read demoStoreNoBin none "abc" 0 = .ok [] :=
  read_record_without_data_bin demoStoreNoBin "abc" 0
    { bins := [("x", [1])], ttl := none } rfl rfl

/-- C10: read results and write effects are independent of the `lifetime`
argument: two calls identical except for lifetime return the same bytes
and produce the same store state and returned identifier. -/
theorem lifetime_independent (st : AerospikeSessionStore)
    (fault : Option Nat) (sid : String) (data : Bytes) (l1 l2 ttl : Int) :
    read st fault sid l1 = read st fault sid l2 ∧
    write st sid data l1 ttl = write st sid data l2 ttl :=
  ⟨rfl, rfl⟩

end AerospikeStore
